import Mathlib

/-!
Shallow embedding of the teleportation / heralded-entanglement example
(files util.py, main.py, link_layer.py, utils/components.py).

The application protocols (`BellMeasurementProtocol`, `CorrectionProtocol`)
are event-driven loops: each pass through the `while True` body wakes on one
of two conditions, updates local flags, and possibly fires a block of
actions.  We embed one pass of each loop body as a pure step function from
the protocol's local state and the waking event to the new state plus the
ordered list of side-effecting actions issued during that pass.
-/

namespace NetSquid

/-- Quantum-memory instructions issued by the protocols (source:
`netsquid.components.instructions`; only Z and X corrections are issued by
`CorrectionProtocol.run`). -/
inductive Instr where
  | INSTR_Z
  | INSTR_X
  deriving DecidableEq, Repr

/-- Signals emitted via `self.send_signal` (source:
`netsquid.protocols.protocol.Signals`). -/
inductive Signal where
  | SUCCESS
  deriving DecidableEq, Repr

/-! ## CorrectionProtocol (util.py lines 245-273) -/

/-- Local state of `CorrectionProtocol.run`: the two variables
`entanglement_ready` and `meas_results` live across loop iterations. -/
structure CPState where
  entanglement_ready : Bool
  meas_results : Option (Nat × Nat)
  deriving DecidableEq, Repr

/-- The event that wakes one iteration of the `while True` loop:
either the classical message from Alice arrives on `cin_alice`
(carrying the measurement pair, `meas_results, = port_alice.rx_input().items`),
or the entangled qubit arrives on `qin_charlie`. -/
inductive CPEvent where
  | aliceMsg (m : Nat × Nat)
  | charlieQubit
  deriving DecidableEq, Repr

/-- Observable actions issued by one pass of the correction loop body, in
program order. -/
inductive CPAction where
  | execInstruction (i : Instr)
  | awaitProgram
  | sendSignal (s : Signal)
  deriving DecidableEq, Repr

/-- State update performed at the top of the loop body
(util.py lines 259-262): a message from Alice overwrites `meas_results`,
a qubit from Charlie sets `entanglement_ready`. -/
def CPState.update (s : CPState) (e : CPEvent) : CPState :=
  match e with
  | .aliceMsg m => { s with meas_results := some m }
  | .charlieQubit => { s with entanglement_ready := true }

/-- Correction block of util.py lines 264-271: if `meas_results[0] == 1`
execute Z and await the program, then if `meas_results[1] == 1` execute X
and await the program, then `send_signal(Signals.SUCCESS, 0)`. -/
def correctionActions (m : Nat × Nat) : List CPAction :=
  (if m.1 = 1 then [CPAction.execInstruction Instr.INSTR_Z, CPAction.awaitProgram] else []) ++
  (if m.2 = 1 then [CPAction.execInstruction Instr.INSTR_X, CPAction.awaitProgram] else []) ++
  [CPAction.sendSignal Signal.SUCCESS]

/-- One full pass of the `while True` body of `CorrectionProtocol.run`
(util.py lines 255-273): update state from the waking event; if both the
measurement results and the entangled qubit are present, issue the
correction block and reset both state variables. -/
def CorrectionProtocol.step (s : CPState) (e : CPEvent) : CPState × List CPAction :=
  let s1 := s.update e
  match s1.meas_results, s1.entanglement_ready with
  | some m, true => (⟨false, none⟩, correctionActions m)
  | _, _ => (s1, [])

/-- Run the correction loop over a sequence of waking events, accumulating
the issued actions in order. -/
def CorrectionProtocol.runTrace (s : CPState) (es : List CPEvent) :
    CPState × List CPAction :=
  match es with
  | [] => (s, [])
  | e :: rest =>
      let (s1, as1) := CorrectionProtocol.step s e
      let (s2, as2) := CorrectionProtocol.runTrace s1 rest
      (s2, as1 ++ as2)

/-- The corrections (Z/X instructions) issued in an action list, in order. -/
def issuedCorrections (acts : List CPAction) : List Instr :=
  acts.filterMap (fun a => match a with
    | .execInstruction i => some i
    | _ => none)

/-- Number of SUCCESS signals in a correction-side action list. -/
def countSuccessCP (acts : List CPAction) : Nat :=
  (acts.filter (fun a => a = CPAction.sendSignal Signal.SUCCESS)).length

/-! ## BellMeasurementProtocol (util.py lines 216-243) -/

/-- Local state of `BellMeasurementProtocol.run`: the flags
`qubit_initialised` and `entanglement_ready`. -/
structure BMState where
  qubit_initialised : Bool
  entanglement_ready : Bool
  deriving DecidableEq, Repr

/-- The event that wakes one iteration of the measurement-side loop:
`expr.first_term.value` distinguishes program completion from arrival of
the entangled qubit on `qin_charlie`. -/
inductive BMEvent where
  | programDone
  | portInput
  deriving DecidableEq, Repr

/-- Observable actions issued by one pass of the measurement-side loop
body, in program order. -/
inductive BMAction where
  | executeBSM
  | txOutput (m : Nat × Nat)
  | sendSignal (s : Signal)
  | startInitProgram
  deriving DecidableEq, Repr

/-- Flag update at the top of the loop body (util.py lines 230-233). -/
def BMState.update (s : BMState) (e : BMEvent) : BMState :=
  match e with
  | .programDone => { s with qubit_initialised := true }
  | .portInput => { s with entanglement_ready := true }

/-- One full pass of the `while True` body of `BellMeasurementProtocol.run`
(util.py lines 227-243).  `meas` is the pair `(m1, m2)` the substrate's
Bell measurement would return; when both flags are true the body runs the
measurement program, transmits `(m1, m2)` on `cout_bob`, emits SUCCESS,
resets both flags, and restarts the init program. -/
def BellMeasurementProtocol.step (s : BMState) (e : BMEvent) (meas : Nat × Nat) :
    BMState × List BMAction :=
  let s1 := s.update e
  if s1.qubit_initialised && s1.entanglement_ready then
    (⟨false, false⟩,
     [BMAction.executeBSM, BMAction.txOutput meas,
      BMAction.sendSignal Signal.SUCCESS, BMAction.startInitProgram])
  else (s1, [])

/-- Number of SUCCESS signals in a measurement-side action list. -/
def countSuccessBM (acts : List BMAction) : Nat :=
  (acts.filter (fun a => a = BMAction.sendSignal Signal.SUCCESS)).length

/-! ## BSMDetector (utils/components.py lines 110-164) -/

/-- Qubits are opaque tokens for the detector's bookkeeping; only arrival
counts matter. -/
abbrev Qubit := Nat

/-- An element of an outcome list passed to `BSMDetector.inform`: either a
post-processed measurement outcome code, or the literal string replacement
used on timeout. -/
inductive OutcomeItem where
  | code (n : Int)
  | TIMEOUT
  deriving DecidableEq, Repr

/-- A heralding message as built by `BSMDetector.inform`
(`Message(outcomes, header=header, ...)`). -/
structure Message where
  items : List OutcomeItem
  header : String
  deriving DecidableEq, Repr

/-- Mutable detector bookkeeping: the `_sender_ids` list set up in
`BSMDetector.__init__` (utils/components.py line 126). -/
structure BSMDetector where
  sender_ids : List String
  deriving DecidableEq, Repr

/-- Detector state as constructed: `self._sender_ids = []`. -/
def BSMDetector.init : BSMDetector := ⟨[]⟩

/-- Embedding of `BSMDetector.preprocess_inputs` (utils/components.py
lines 128-135): for every input port whose qubit list is non-empty, append
`port_name[3:]` to `_sender_ids`.  `qubits_per_port` is the
`self._qubits_per_port` dict, in iteration order. -/
def BSMDetector.preprocess_inputs (d : BSMDetector)
    (qubits_per_port : List (String × List Qubit)) : BSMDetector :=
  ⟨d.sender_ids ++
    (qubits_per_port.filter (fun p => p.2.length > 0)).map (fun p => p.1.drop 3)⟩

/-- Embedding of `BSMDetector.inform` (utils/components.py lines 137-159):
for each output port in `port_outcomes`, an empty outcome list becomes
`['TIMEOUT']` with header `'error'`, otherwise the outcomes are kept with
header `'photonoutcome'`; the message is transmitted only when
`port_name[4:]` is among the recorded sender ids.  The result is the
ordered list of `(port_name, message)` transmissions. -/
def BSMDetector.inform (d : BSMDetector)
    (port_outcomes : List (String × List OutcomeItem)) : List (String × Message) :=
  port_outcomes.filterMap (fun p =>
    let om : List OutcomeItem × String :=
      if p.2.length = 0 then ([OutcomeItem.TIMEOUT], "error")
      else (p.2, "photonoutcome")
    if d.sender_ids.contains (p.1.drop 4) then some (p.1, ⟨om.1, om.2⟩)
    else none)

/-- Embedding of `BSMDetector.finish` (utils/components.py lines 161-164):
`self._sender_ids.clear()`. -/
def BSMDetector.finish (_d : BSMDetector) : BSMDetector := ⟨[]⟩

/-! ## HeraldedConnection (utils/components.py lines 166-211)

Channel delays are embedded over `ℚ`; the source computes them with the
literal expression `length / 200000 * 1e9`. -/

/-- The channel/detector configuration produced by
`HeraldedConnection.__init__`: the two classical (reverse) channels, the
two quantum (forward) channels, and the detector's `system_delay`
(set from `time_window`). -/
structure HeraldedConnection where
  channel_a_delay : ℚ
  channel_b_delay : ℚ
  qchannel_a_delay : ℚ
  qchannel_b_delay : ℚ
  detector_system_delay : ℚ
  deriving DecidableEq, Repr

/-- Embedding of `HeraldedConnection.__init__` (utils/components.py lines
187-211): `delay_a = length_to_a / 200000 * 1e9`,
`delay_b = length_to_b / 200000 * 1e9`; each side's classical and quantum
channel get that side's delay, and the midpoint detector gets
`system_delay=time_window`.  The constructor performs no validation, so the
embedding is a total function. -/
def HeraldedConnection.init (length_to_a length_to_b time_window : ℚ) :
    HeraldedConnection :=
  let delay_a := length_to_a / 200000 * 1e9
  let delay_b := length_to_b / 200000 * 1e9
  { channel_a_delay := delay_a
    channel_b_delay := delay_b
    qchannel_a_delay := delay_a
    qchannel_b_delay := delay_b
    detector_system_delay := time_window }

/-! ## scalable_network_setup (util.py lines 44-75, identical in main.py) -/

/-- Allocation counter standing for Python object creation: each
constructor call yields a fresh object identity. -/
structure Alloc where
  next : Nat
  deriving DecidableEq, Repr

/-- Allocate a fresh object identity. -/
def Alloc.fresh (a : Alloc) : Nat × Alloc := (a.next, ⟨a.next + 1⟩)

/-- The network produced by `scalable_network_setup`: each `add_connection`
call is recorded as `(node1, node2, connection object id)`. -/
structure NetworkModel where
  nodes : List String
  classical_connections : List (String × String × Nat)
  quantum_connections : List (String × String × Nat)
  deriving DecidableEq, Repr

/-- Embedding of `scalable_network_setup` (util.py lines 44-75): one
`ClassicalConnection` object `c_conn` is constructed before the classical
wiring loop and passed to `add_connection` for every pair of `ccon_list`;
one `EntanglingConnection` object `q_conn` is constructed before the
quantum wiring loop and passed to `add_connection` for every pair of
`qcon_list`. -/
def scalable_network_setup (node_names : List String)
    (ccon_list qcon_list : List (String × String)) : NetworkModel :=
  let a0 : Alloc := ⟨0⟩
  let (c_conn, a1) := a0.fresh
  let cconns := ccon_list.map (fun p => (p.1, p.2, c_conn))
  let (q_conn, _a2) := a1.fresh
  let qconns := qcon_list.map (fun p => (p.1, p.2, q_conn))
  { nodes := node_names
    classical_connections := cconns
    quantum_connections := qconns }

/-! ## Helper lemmas -/

/-- Port-name suffix used by `preprocess_inputs` for input port `qin0`. -/
theorem drop_qin0 : "qin0".drop 3 = "0" := rfl

/-- Port-name suffix used by `preprocess_inputs` for input port `qin1`. -/
theorem drop_qin1 : "qin1".drop 3 = "1" := rfl

/-- Port-name suffix used by `inform` for output port `cout0`. -/
theorem drop_cout0 : "cout0".drop 4 = "0" := rfl

/-- Port-name suffix used by `inform` for output port `cout1`. -/
theorem drop_cout1 : "cout1".drop 4 = "1" := rfl

/-- The two sender-id strings are distinct. -/
theorem zero_ne_one_str : ("0" : String) ≠ "1" := by decide

/-- The two sender-id strings are distinct (symmetric form). -/
theorem one_ne_zero_str : ("1" : String) ≠ "0" := by decide

/-- Mapping the connection-object component over a wiring loop that reuses
one object yields a constant list. -/
theorem map_third_of_const_wiring (l : List (String × String)) (k : Nat) :
    (l.map (fun p => (p.1, p.2, k))).map (fun c => c.2.2) =
      List.replicate l.length k := by
  induction l with
  | nil => rfl
  | cons a t ih => simp [List.replicate_succ, ih]

/-- Every correction block ends with exactly one SUCCESS signal. -/
theorem countSuccessCP_correctionActions (m : Nat × Nat) :
    countSuccessCP (correctionActions m) = 1 := by
  unfold correctionActions countSuccessCP
  split_ifs <;> rfl

/-! ## Claim theorems -/

/-- C1: with both state conditions satisfied (in either arrival order), the
correction pass issues exactly the ordered sequence of corrections
`()` for (0,0), `(X)` for (0,1), `(Z)` for (1,0), `(Z, X)` for (1,1);
the Z correction is issued first iff `m1 = 1` and is awaited to completion
before the X correction is issued iff `m2 = 1`. -/
theorem correction_truth_table :
    (CorrectionProtocol.step ⟨false, some (0, 0)⟩ CPEvent.charlieQubit).2 =
      [CPAction.sendSignal Signal.SUCCESS] ∧
    (CorrectionProtocol.step ⟨false, some (0, 1)⟩ CPEvent.charlieQubit).2 =
      [CPAction.execInstruction Instr.INSTR_X, CPAction.awaitProgram,
       CPAction.sendSignal Signal.SUCCESS] ∧
    (CorrectionProtocol.step ⟨false, some (1, 0)⟩ CPEvent.charlieQubit).2 =
      [CPAction.execInstruction Instr.INSTR_Z, CPAction.awaitProgram,
       CPAction.sendSignal Signal.SUCCESS] ∧
    (CorrectionProtocol.step ⟨false, some (1, 1)⟩ CPEvent.charlieQubit).2 =
      [CPAction.execInstruction Instr.INSTR_Z, CPAction.awaitProgram,
       CPAction.execInstruction Instr.INSTR_X, CPAction.awaitProgram,
       CPAction.sendSignal Signal.SUCCESS] ∧
    (CorrectionProtocol.step ⟨true, none⟩ (CPEvent.aliceMsg (0, 0))).2 =
      [CPAction.sendSignal Signal.SUCCESS] ∧
    (CorrectionProtocol.step ⟨true, none⟩ (CPEvent.aliceMsg (0, 1))).2 =
      [CPAction.execInstruction Instr.INSTR_X, CPAction.awaitProgram,
       CPAction.sendSignal Signal.SUCCESS] ∧
    (CorrectionProtocol.step ⟨true, none⟩ (CPEvent.aliceMsg (1, 0))).2 =
      [CPAction.execInstruction Instr.INSTR_Z, CPAction.awaitProgram,
       CPAction.sendSignal Signal.SUCCESS] ∧
    (CorrectionProtocol.step ⟨true, none⟩ (CPEvent.aliceMsg (1, 1))).2 =
      [CPAction.execInstruction Instr.INSTR_Z, CPAction.awaitProgram,
       CPAction.execInstruction Instr.INSTR_X, CPAction.awaitProgram,
       CPAction.sendSignal Signal.SUCCESS] := by
  decide

/-- C2: in a detector cycle (fresh sender set, the two input ports `qin0`,
`qin1`, the two output ports `cout0`, `cout1`), a heralding message goes to
`cout_i` exactly when `qin_i` delivered at least one qubit, so the number
of messages equals the number of contributing ports. -/
theorem detector_messages_match_contributors (qA qB : List Qubit)
    (oA oB : List OutcomeItem) :
    ((BSMDetector.init.preprocess_inputs [("qin0", qA), ("qin1", qB)]).inform
        [("cout0", oA), ("cout1", oB)]).map Prod.fst =
      (if 0 < qA.length then ["cout0"] else []) ++
      (if 0 < qB.length then ["cout1"] else []) ∧
    ((BSMDetector.init.preprocess_inputs [("qin0", qA), ("qin1", qB)]).inform
        [("cout0", oA), ("cout1", oB)]).length =
      (if 0 < qA.length then 1 else 0) + (if 0 < qB.length then 1 else 0) := by
  constructor <;>
    cases qA <;> cases qB <;>
      simp [BSMDetector.init, BSMDetector.preprocess_inputs, BSMDetector.inform,
            List.filterMap, List.contains, drop_qin0, drop_qin1, drop_cout0,
            drop_cout1, zero_ne_one_str, one_ne_zero_str]

/-- C3: in a cycle where exactly one sender contributes a qubit —
whichever of the two sides it is — an empty outcome list produces exactly
one message, to that sender only, with payload `[TIMEOUT]` and header
`error`; a non-empty outcome list produces exactly one message, to that
sender only, with the outcomes forwarded verbatim and header
`photonoutcome`. -/
theorem detector_single_contributor_messages (q : Qubit) (qrest : List Qubit)
    (oOther : List OutcomeItem) (o : OutcomeItem) (orest : List OutcomeItem) :
    (BSMDetector.init.preprocess_inputs [("qin0", q :: qrest), ("qin1", [])]).inform
        [("cout0", []), ("cout1", oOther)] =
      [("cout0", ⟨[OutcomeItem.TIMEOUT], "error"⟩)] ∧
    (BSMDetector.init.preprocess_inputs [("qin0", q :: qrest), ("qin1", [])]).inform
        [("cout0", o :: orest), ("cout1", oOther)] =
      [("cout0", ⟨o :: orest, "photonoutcome"⟩)] ∧
    (BSMDetector.init.preprocess_inputs [("qin0", []), ("qin1", q :: qrest)]).inform
        [("cout0", oOther), ("cout1", [])] =
      [("cout1", ⟨[OutcomeItem.TIMEOUT], "error"⟩)] ∧
    (BSMDetector.init.preprocess_inputs [("qin0", []), ("qin1", q :: qrest)]).inform
        [("cout0", oOther), ("cout1", o :: orest)] =
      [("cout1", ⟨o :: orest, "photonoutcome"⟩)] := by
  refine ⟨?_, ?_, ?_, ?_⟩ <;>
    simp [BSMDetector.init, BSMDetector.preprocess_inputs, BSMDetector.inform,
          List.filterMap, List.contains, drop_qin0, drop_qin1, drop_cout0,
          drop_cout1, zero_ne_one_str, one_ne_zero_str]

/-- C4: in every loop pass of `BellMeasurementProtocol.run` where both
flags are true after the wake-up, the body performs, in order, the Bell
measurement, the transmission of `(m1, m2)`, one SUCCESS emission, the
reset of both flags, and the restart of the init program; in every pass
where the flags are not both true, none of these occur and the state is
just the updated flags. -/
theorem bell_measurement_round (s : BMState) (e : BMEvent) (meas : Nat × Nat) :
    ((s.update e).qubit_initialised = true → (s.update e).entanglement_ready = true →
      BellMeasurementProtocol.step s e meas =
        (⟨false, false⟩,
         [BMAction.executeBSM, BMAction.txOutput meas,
          BMAction.sendSignal Signal.SUCCESS, BMAction.startInitProgram])) ∧
    (((s.update e).qubit_initialised && (s.update e).entanglement_ready) = false →
      BellMeasurementProtocol.step s e meas = (s.update e, [])) := by
  unfold BellMeasurementProtocol.step
  rcases hs : s.update e with ⟨qi, er⟩
  cases qi <;> cases er <;> simp

/-- C4 witness: the both-flags case fires the full ordered block, the
one-flag case does nothing. -/
theorem bell_measurement_round_witness :
    BellMeasurementProtocol.step ⟨true, false⟩ BMEvent.portInput (1, 0) =
      (⟨false, false⟩,
       [BMAction.executeBSM, BMAction.txOutput (1, 0),
        BMAction.sendSignal Signal.SUCCESS, BMAction.startInitProgram]) ∧
    BellMeasurementProtocol.step ⟨false, false⟩ BMEvent.portInput (1, 0) =
      (BMState.update ⟨false, false⟩ BMEvent.portInput, []) :=
  ⟨(bell_measurement_round ⟨true, false⟩ BMEvent.portInput (1, 0)).1
      (by decide) (by decide),
   (bell_measurement_round ⟨false, false⟩ BMEvent.portInput (1, 0)).2 (by decide)⟩

/-- C5: each loop pass of either protocol emits exactly one SUCCESS when
its two round conditions hold after the wake-up and zero otherwise, hence
at most one SUCCESS per completed round per protocol instance. -/
theorem success_once_per_round (s : BMState) (e : BMEvent) (meas : Nat × Nat)
    (t : CPState) (f : CPEvent) :
    countSuccessBM (BellMeasurementProtocol.step s e meas).2 =
      (if (s.update e).qubit_initialised && (s.update e).entanglement_ready
       then 1 else 0) ∧
    countSuccessCP (CorrectionProtocol.step t f).2 =
      (if (t.update f).meas_results.isSome && (t.update f).entanglement_ready
       then 1 else 0) := by
  constructor
  · unfold BellMeasurementProtocol.step
    rcases hs : s.update e with ⟨qi, er⟩
    cases qi <;> cases er <;> simp [countSuccessBM]
  · unfold CorrectionProtocol.step
    rcases ht : t.update f with ⟨er, mr⟩
    cases er <;> cases mr
    · simp [countSuccessCP]
    · simp [countSuccessCP]
    · simp [countSuccessCP]
    · simp [countSuccessCP_correctionActions]

/-- C6: `finish` clears the recorded sender set, so a later cycle's
`preprocess_inputs` and `inform` behave exactly as on a freshly
constructed detector. -/
theorem finish_clears_sender_ids (d : BSMDetector)
    (q : List (String × List Qubit)) (po : List (String × List OutcomeItem)) :
    (d.finish).sender_ids = [] ∧
    (d.finish).preprocess_inputs q = BSMDetector.init.preprocess_inputs q ∧
    ((d.finish).preprocess_inputs q).inform po =
      (BSMDetector.init.preprocess_inputs q).inform po :=
  ⟨rfl, rfl, rfl⟩

/-- C7: both channels on side A get delay `length_to_a / 200000 * 1e9` and
both channels on side B get delay `length_to_b / 200000 * 1e9`, computed
independently per side, so the two sides' delays may differ. -/
theorem heralded_connection_delay_formula (la lb tw : ℚ) :
    (HeraldedConnection.init la lb tw).qchannel_a_delay = la / 200000 * 1e9 ∧
    (HeraldedConnection.init la lb tw).channel_a_delay = la / 200000 * 1e9 ∧
    (HeraldedConnection.init la lb tw).qchannel_b_delay = lb / 200000 * 1e9 ∧
    (HeraldedConnection.init la lb tw).channel_b_delay = lb / 200000 * 1e9 ∧
    (HeraldedConnection.init 1 2 0).channel_a_delay ≠
      (HeraldedConnection.init 1 2 0).channel_b_delay := by
  refine ⟨rfl, rfl, rfl, rfl, ?_⟩
  norm_num [HeraldedConnection.init]

/-- C8: the constructor performs no validation at all: at
`time_window = -5` it still builds the full connection, forwarding the
negative window to the detector as its `system_delay`, instead of failing
at construction time as the claim and the constructor docstring
(time_window: must be positive) require. -/
theorem heralded_connection_accepts_negative_time_window :
    HeraldedConnection.init 1 1 (-5) =
      { channel_a_delay := 5000, channel_b_delay := 5000,
        qchannel_a_delay := 5000, qchannel_b_delay := 5000,
        detector_system_delay := -5 } ∧
    (HeraldedConnection.init 1 1 (-5)).detector_system_delay < 0 := by
  constructor <;> norm_num [HeraldedConnection.init]

/-- C9: every classical wiring pair is given the same single
`ClassicalConnection` object and every quantum wiring pair the same single
`EntanglingConnection` object, so with two or more pairs distinct node
pairs share one connection component instead of receiving fresh ones. -/
theorem scalable_setup_single_connection_objects (node_names : List String)
    (ccon_list qcon_list : List (String × String)) :
    (scalable_network_setup node_names ccon_list qcon_list).classical_connections.map
        (fun c => c.2.2) = List.replicate ccon_list.length 0 ∧
    (scalable_network_setup node_names ccon_list qcon_list).quantum_connections.map
        (fun c => c.2.2) = List.replicate qcon_list.length 1 :=
  ⟨map_third_of_const_wiring ccon_list 0, map_third_of_const_wiring qcon_list 1⟩

/-- C10: an arrival on `cin_alice` always overwrites `meas_results` with
the newly received pair and fires nothing while the qubit is missing; with
two pairs received before the qubit, only the second pair determines the
corrections, the first is silently dropped, and exactly one SUCCESS is
emitted for the round. -/
theorem alice_message_overwrites_meas_results (s : CPState) (m p1 p2 : Nat × Nat) :
    (s.entanglement_ready = false →
      CorrectionProtocol.step s (CPEvent.aliceMsg m) =
        ({ entanglement_ready := false, meas_results := some m }, [])) ∧
    CorrectionProtocol.runTrace ⟨false, none⟩
        [CPEvent.aliceMsg p1, CPEvent.aliceMsg p2, CPEvent.charlieQubit] =
      (⟨false, none⟩, correctionActions p2) ∧
    countSuccessCP (CorrectionProtocol.runTrace ⟨false, none⟩
        [CPEvent.aliceMsg p1, CPEvent.aliceMsg p2, CPEvent.charlieQubit]).2 = 1 := by
  refine ⟨?_, ?_, ?_⟩
  · intro h
    rcases s with ⟨er, mr⟩
    cases er
    · simp [CorrectionProtocol.step, CPState.update]
    · simp at h
  · simp [CorrectionProtocol.runTrace, CorrectionProtocol.step, CPState.update]
  · simp [CorrectionProtocol.runTrace, CorrectionProtocol.step, CPState.update,
          countSuccessCP_correctionActions]

/-- C10 witness: a second pair from Alice overwrites a stored first pair
without firing anything. -/
theorem alice_message_overwrites_meas_results_witness :
    CorrectionProtocol.step ⟨false, some (0, 0)⟩ (CPEvent.aliceMsg (1, 1)) =
      (⟨false, some (1, 1)⟩, []) :=
  (alice_message_overwrites_meas_results ⟨false, some (0, 0)⟩ (1, 1) (0, 0) (1, 1)).1 rfl

end NetSquid
